import Mathlib

/-!
# RailDoorHMICAN: door node and HMI over a CAN bus

A shallow embedding of the two programs of the repository,
`apps/DoorNode/src/main.cpp` and `apps/HmiApp/src/main.cpp`.

Conventions of the embedding

* Bytes (`uint8_t`) and frame identifiers (`uint32_t`) are natural numbers; a
  conversion that can truncate is written with an explicit `%`.
* `int` values are integers.
* `std::chrono::steady_clock` time points and durations are integers counting
  nanoseconds (the tick of `steady_clock` on the toolchains the programs build
  with); a default-constructed time point is `0`.
* Console output is a list of lines.  The wall-clock stamp that `Log` puts in
  front of every line is left out, everything after it is kept.
* The threads interleave in steps, in any order.  One iteration of a receive
  loop is a step, and so is a menu selection.  The detached completion thread
  of `start_move` takes three steps after its sleep, one for each access to
  shared state: the load of `g_running`, the load of `move_token`, and
  `set_state`, the only part that holds `status_mutex`.
-/

namespace RailDoor

/-! ## Declarations shared by the two programs -/

/-- The `enum class DoorState : uint8_t`: a byte with four named values.  The
HMI builds values of this type from raw payload bytes with a `static_cast`, so
the type carries the underlying byte. -/
structure DoorState where
  code : Nat
  deriving DecidableEq, Repr

namespace DoorState

/-- Enumerator `Closed = 0`. -/
def Closed : DoorState := ⟨0⟩

/-- Enumerator `Open = 1`. -/
def Open : DoorState := ⟨1⟩

/-- Enumerator `Moving = 2`. -/
def Moving : DoorState := ⟨2⟩

/-- Enumerator `Faulted = 3`. -/
def Faulted : DoorState := ⟨3⟩

end DoorState

/-- The constant `kCommandId`. -/
def kCommandId : Nat := 0x201

/-- The constant `kStatusIdBase`. -/
def kStatusIdBase : Nat := 0x101

/-- The function `DoorStateToString` (identical in both programs). -/
def DoorStateToString (state : DoorState) : String :=
  match state.code with
  | 0 => "CLOSED"
  | 1 => "OPEN"
  | 2 => "MOVING"
  | 3 => "FAULTED"
  | _ => "UNKNOWN"

/-- The fields of `CANAPI_Message_t` the programs use: identifier, the three
flag bits, the length code and the payload bytes. -/
structure CANAPI_Message_t where
  id : Nat
  xtd : Nat
  rtr : Nat
  sts : Nat
  dlc : Nat
  data : List Nat
  deriving DecidableEq, Repr

/-- The read `message.data[i]`. -/
def CANAPI_Message_t.byte (message : CANAPI_Message_t) (i : Nat) : Nat :=
  message.data.getD i 0

/-- One tick of `std::chrono::milliseconds` in ticks of the steady clock. -/
def kTicksPerMs : Int := 1000000

/-- The conversion `std::chrono::milliseconds(ms)` to steady-clock ticks. -/
def milliseconds (ms : Int) : Int := ms * kTicksPerMs

/-- What `can_api.ReadMessage` hands back to a receive loop: a frame with
`CANERR_NOERROR`, `CANERR_RX_EMPTY`, `CANERR_TIMEOUT`, or another return code,
for which `text` is the result of `ErrorToString`. -/
inductive ReadResult where
  | noerror (message : CANAPI_Message_t)
  | rx_empty
  | timeout
  | failure (text : String)
  deriving DecidableEq, Repr

/-! ## DoorNode -/

namespace DoorNode

/-- The numeric fields of `Config`. -/
structure Config where
  door_id : Int := 0
  period_ms : Int := 100
  move_ms : Int := 2000
  obstruction : Nat := 0
  deriving DecidableEq, Repr

/-- The struct `DoorStatus`. -/
structure DoorStatus where
  state : DoorState := DoorState.Closed
  fault_code : Nat := 0
  obstruction : Nat := 0
  deriving DecidableEq, Repr

/-- The struct `RateLimiter`. -/
structure RateLimiter where
  last_log : Int := 0
  suppressed : Nat := 0
  deriving DecidableEq, Repr

/-- A detached completion thread of `start_move`: the captured `token` and
`target`. -/
structure Timer where
  token : Nat
  target : DoorState
  deriving DecidableEq, Repr

/-- The state shared by the threads of `main`: `g_running`, `status`,
`move_token`, the two rate limiters, the completion threads and the lines
written so far.  A completion thread is in `pending` while it sleeps, in
`awake` once it has found `g_running` set, and in `armed` once it has found
its token equal to `move_token` and is about to call `set_state`. -/
structure Node where
  g_running : Bool := true
  status : DoorStatus := {}
  move_token : Nat := 0
  read_limiter : RateLimiter := {}
  write_limiter : RateLimiter := {}
  pending : List Timer := []
  awake : List Timer := []
  armed : List Timer := []
  log : List String := []
  deriving DecidableEq, Repr

/-- The state of `main` when the threads start. -/
def Node.start (config : Config) : Node :=
  { status := { obstruction := config.obstruction } }

/-- The local `log_prefix` of `main`. -/
def log_prefix (config : Config) : String :=
  "DoorNode[" ++ toString config.door_id ++ "]"

/-- The function `Log(prefix, message)`: one more line. -/
def Log (tag message : String) (log : List String) : List String :=
  log ++ [tag ++ " " ++ message]

/-- The lambda `set_state`. -/
def set_state (config : Config) (next : DoorState) (st : Node) : Node :=
  if st.status.state ≠ next then
    { st with
      status := { st.status with state := next }
      log := Log ( log_prefix config) ("Door state -> " ++ DoorStateToString next) st.log }
  else st

/-- The lambda `set_fault`. -/
def set_fault (config : Config) (fault_code : Nat) (st : Node) : Node :=
  if st.status.fault_code ≠ fault_code then
    { st with
      status := { st.status with fault_code := fault_code }
      log := Log ( log_prefix config) ("Fault code -> " ++ toString fault_code) st.log }
  else st

/-- The lambda `start_move` up to the `detach`: the pre-increment of the 64-bit
`move_token`, `set_state(Moving)`, and the new sleeping thread. -/
def start_move (config : Config) (target : DoorState) (st : Node) : Node :=
  let token := (st.move_token + 1) % 2 ^ 64
  let st1 := set_state config DoorState.Moving { st with move_token := token }
  { st1 with pending := st1.pending ++ [{ token := token, target := target }] }

/-- The thread of `start_move` after its `sleep_for`: the load of `g_running`.
The thread returns when the flag is clear and goes on otherwise. -/
def completion_wake (timer : Timer) (st : Node) : Node :=
  if !st.g_running then st
  else { st with awake := st.awake ++ [timer] }

/-- The thread of `start_move`: the load of `move_token`.  The thread returns
when its token differs and goes on otherwise. -/
def completion_check (timer : Timer) (st : Node) : Node :=
  if st.move_token ≠ timer.token then st
  else { st with armed := st.armed ++ [timer] }

/-- The thread of `start_move`: its last statement, `set_state(target)`. -/
def completion_act (config : Config) (timer : Timer) (st : Node) : Node :=
  set_state config timer.target st

/-- The function `BuildStatusMessage`. -/
def BuildStatusMessage (door_id : Int) (status : DoorStatus) : CANAPI_Message_t :=
  { id := (kStatusIdBase + ((door_id - 1) % 2 ^ 32).toNat) % 2 ^ 32
    xtd := 0
    rtr := 0
    sts := 0
    dlc := 8
    data := [status.state.code, status.obstruction, status.fault_code,
             (door_id % 256).toNat, 0, 0, 0, 0] }

/-- The branch `rc_read == CANERR_NOERROR` of the loop of `rx_thread`. -/
def rx_frame (config : Config) (message : CANAPI_Message_t) (st : Node) : Node :=
  if message.sts ≠ 0 ∨ message.xtd ≠ 0 ∨ message.rtr ≠ 0 then st
  else if message.id ≠ kCommandId ∨ message.dlc < 2 then st
  else
    let door_id := message.byte 0
    let cmd := message.byte 1
    if (door_id : Int) ≠ config.door_id then st
    else if cmd = 1 then
      let current_state := st.status.state
      if current_state = DoorState.Closed then
        start_move config DoorState.Open
          { st with log := Log ( log_prefix config) "Command OPEN received" st.log }
      else st
    else if cmd = 2 then
      let current_state := st.status.state
      if current_state = DoorState.Open then
        start_move config DoorState.Closed
          { st with log := Log ( log_prefix config) "Command CLOSE received" st.log }
      else st
    else if cmd = 3 then
      set_state config DoorState.Closed
        (set_fault config 0
          { st with log := Log ( log_prefix config) "Command RESET_FAULT received" st.log })
    else st

/-- The function `LogRateLimited`, with the value `now` that its first line
reads from the steady clock and `interval` in milliseconds.  The counter
`suppressed` is a 64-bit `size_t`. -/
def LogRateLimited (tag message : String) (limiter : RateLimiter) (interval : Int)
    (now : Int) (log : List String) : RateLimiter × List String :=
  if limiter.last_log = 0 ∨ now - limiter.last_log ≥ milliseconds interval then
    let suffix :=
      if limiter.suppressed > 0 then
        " (" ++ toString limiter.suppressed ++ " similar errors suppressed)"
      else ""
    let suppressed := if limiter.suppressed > 0 then 0 else limiter.suppressed
    ({ last_log := now, suppressed := suppressed }, Log tag (message ++ suffix) log)
  else
    ({ limiter with suppressed := (limiter.suppressed + 1) % 2 ^ 64 }, log)

/-- One iteration of the loop of `rx_thread`, `now` being the steady-clock
reading of `LogRateLimited` when the iteration gets that far. -/
def rx_iteration (config : Config) (now : Int) (rc_read : ReadResult) (st : Node) : Node :=
  match rc_read with
  | .noerror message => rx_frame config message st
  | .rx_empty => st
  | .timeout => st
  | .failure text =>
    let r := LogRateLimited ( log_prefix config) ("CAN read error: " ++ text)
      st.read_limiter 1000 now st.log
    { st with read_limiter := r.1, log := r.2 }

/-- Consecutive calls of `LogRateLimited` on one limiter with the same
arguments, one call for each clock reading of `times`. -/
def logRateLimitedCalls (tag message : String) (interval : Int) (times : List Int)
    (start : RateLimiter × List String) : RateLimiter × List String :=
  times.foldl (fun acc now => LogRateLimited tag message acc.1 interval now acc.2) start

/-- The steps of the door node. -/
inductive Event where
  /-- One iteration of the receive loop. -/
  | read (now : Int) (rc_read : ReadResult)
  /-- The sleeping completion thread at position `i` wakes up and loads
  `g_running`. -/
  | wake (i : Nat)
  /-- The completion thread at position `i` of `awake` loads `move_token`. -/
  | check (i : Nat)
  /-- The completion thread at position `i` of `armed` calls `set_state`. -/
  | act (i : Nat)
  /-- The console handler clears `g_running`. -/
  | stop
  deriving DecidableEq, Repr

/-- The effect of one step. -/
def step (config : Config) (st : Node) (ev : Event) : Node :=
  match ev with
  | .read now rc_read => rx_iteration config now rc_read st
  | .wake i =>
    match st.pending[i]? with
    | none => st
    | some timer => completion_wake timer { st with pending := st.pending.eraseIdx i }
  | .check i =>
    match st.awake[i]? with
    | none => st
    | some timer => completion_check timer { st with awake := st.awake.eraseIdx i }
  | .act i =>
    match st.armed[i]? with
    | none => st
    | some timer => completion_act config timer { st with armed := st.armed.eraseIdx i }
  | .stop => { st with g_running := false }

/-- The effect of a sequence of steps. -/
def run (config : Config) (st : Node) (evs : List Event) : Node :=
  evs.foldl (step config) st

/-- The three steps of the completion thread that sleeps at position `i`, one
right after the other. -/
def completes (st : Node) (i : Nat) : List Event :=
  [.wake i, .check st.awake.length, .act st.armed.length]

/-- The states the command set keeps the node in: the door is `Closed`, `Open`
or `Moving`, and every completion thread heads for `Open` or `Closed`. -/
def commandStates (st : Node) : Prop :=
  (st.status.state = DoorState.Closed ∨ st.status.state = DoorState.Open ∨
    st.status.state = DoorState.Moving) ∧
  (∀ timer ∈ st.pending, timer.target = DoorState.Open ∨ timer.target = DoorState.Closed) ∧
  (∀ timer ∈ st.awake, timer.target = DoorState.Open ∨ timer.target = DoorState.Closed) ∧
  (∀ timer ∈ st.armed, timer.target = DoorState.Open ∨ timer.target = DoorState.Closed)

instance (st : Node) : Decidable (commandStates st) := by
  unfold commandStates
  infer_instance

/-- A command frame as the HMI builds it, seen from the door node. -/
def commandFrame (door_id cmd : Nat) : CANAPI_Message_t :=
  { id := kCommandId, xtd := 0, rtr := 0, sts := 0, dlc := 8,
    data := [door_id, cmd, 0, 0, 0, 0, 0, 0] }

end DoorNode

/-! ## HmiApp -/

namespace HmiApp

/-- The constant `kStatusIdMax`. -/
def kStatusIdMax : Nat := 0x103

/-- The struct `DoorInfo`. -/
structure DoorInfo where
  state : DoorState := DoorState.Closed
  obstruction : Nat := 0
  fault_code : Nat := 0
  last_update : Int := 0
  deriving DecidableEq, Repr

/-- The state shared by the threads of `main`: `g_running`, the vector `doors`,
the frames handed to `can_api.WriteMessage`, the lines written by `Log` and the
other lines written to `std::cout` by the input thread. -/
structure Hmi where
  g_running : Bool := true
  doors : List DoorInfo := List.replicate 3 {}
  sent : List CANAPI_Message_t := []
  log : List String := []
  console : List String := []
  deriving DecidableEq, Repr

/-- The function `Log(message)`: one more line. -/
def Log (message : String) (log : List String) : List String :=
  log ++ [message]

/-- The function `BuildCommandMessage`. -/
def BuildCommandMessage (door_id cmd : Nat) : CANAPI_Message_t :=
  { id := kCommandId
    xtd := 0
    rtr := 0
    sts := 0
    dlc := 8
    data := [door_id, cmd, 0, 0, 0, 0, 0, 0] }

/-- The element access `doors[i]` of a `std::vector` with an `int` index: no
value outside the bounds. -/
def vectorAt (doors : List DoorInfo) (i : Int) : Option DoorInfo :=
  if i < 0 then none else doors[i.toNat]?

/-- The door id the receive loop settles on: the payload byte `data[3]` when it
lies in 1..3, else the identifier offset plus one, cast to a byte.  It is only
computed for identifiers that passed the range check, where the unsigned
subtraction does not wrap. -/
def resolve_door_id (message : CANAPI_Message_t) : Nat :=
  let door_id := message.byte 3
  if door_id < 1 ∨ door_id > 3 then ((message.id - kStatusIdBase) + 1) % 256
  else door_id

/-- The branch `rc_read == CANERR_NOERROR` of the loop of `rx_thread`, `now`
being the steady-clock reading stored in `last_update`.  The result is `none`
when the access `doors[door_id - 1]` leaves the vector. -/
def rx_frame (now : Int) (message : CANAPI_Message_t) (st : Hmi) : Option Hmi :=
  if message.sts ≠ 0 ∨ message.xtd ≠ 0 ∨ message.rtr ≠ 0 then some st
  else if message.id < kStatusIdBase ∨ message.id > kStatusIdMax ∨ message.dlc < 4 then some st
  else
    let state_raw := message.byte 0
    let obstruction := message.byte 1
    let fault := message.byte 2
    let door_id := resolve_door_id message
    let new_state : DoorState := ⟨state_raw⟩
    match vectorAt st.doors ((door_id : Int) - 1) with
    | none => none
    | some door =>
      let changed := door.state ≠ new_state ∨ door.obstruction ≠ obstruction ∨
        door.fault_code ≠ fault
      let door1 : DoorInfo :=
        { state := new_state, obstruction := obstruction, fault_code := fault,
          last_update := now }
      let st1 := { st with doors := st.doors.set (door_id - 1) door1 }
      if changed then
        some { st1 with
          log := Log ("Door " ++ toString door_id ++ " -> " ++ DoorStateToString new_state ++
            " obs=" ++ toString obstruction ++ " fault=" ++ toString fault) st1.log }
      else some st1

/-- The four assignments to `door` in the receive loop: the view that a
status frame received at time `now` leaves behind. -/
def decodedView (now : Int) (message : CANAPI_Message_t) : DoorInfo :=
  { state := ⟨message.byte 0⟩, obstruction := message.byte 1, fault_code := message.byte 2,
    last_update := now }

/-- One iteration of the loop of `rx_thread`. -/
def rx_iteration (now : Int) (rc_read : ReadResult) (st : Hmi) : Option Hmi :=
  match rc_read with
  | .noerror message => rx_frame now message st
  | .rx_empty => some st
  | .timeout => some st
  | .failure text => some { st with log := Log ("CAN read error: " ++ text) st.log }

/-- Consecutive iterations of the loop of `rx_thread`, one for each pair of a
clock reading and a read result; `none` once an access has left the vector. -/
def rx_iterations (st : Hmi) : List (Int × ReadResult) → Option Hmi
  | [] => some st
  | (now, rc_read) :: rest =>
    match rx_iteration now rc_read st with
    | none => none
    | some st1 => rx_iterations st1 rest

/-- The flag `stale` of the display loop. -/
def stale (now : Int) (info : DoorInfo) : Bool :=
  decide (info.last_update = 0) || decide (now - info.last_update > milliseconds 500)

/-- The string `state` of the display loop. -/
def stateColumn (now : Int) (info : DoorInfo) : String :=
  if stale now info then "STALE" else DoorStateToString info.state

/-- The stream formatting `std::setw(n) << std::left << text`. -/
def leftw (n : Nat) (text : String) : String :=
  text ++ String.mk (List.replicate (n - text.length) ' ')

/-- The line the display loop writes for `snapshot[i]`. -/
def displayRow (now : Int) (i : Nat) (info : DoorInfo) : String :=
  "" ++ toString (i + 1) ++ "   " ++ leftw 8 (stateColumn now info) ++ " " ++
    leftw 4 (toString info.obstruction) ++ " " ++
    leftw 5 (toString info.fault_code) ++ " " ++
    (if stale now info then "-" else "OK")

/-- The lines of one pass of the display loop over a snapshot of `doors`. -/
def displayTable (now : Int) (snapshot : List DoorInfo) : List String :=
  ["", "Door Status (STALE if >500ms)", "ID  STATE     OBS  FAULT  UPDATED"] ++
    (List.range snapshot.length).zipWith (displayRow now) snapshot

/-- The nine command lines that `PrintMenu` writes, in order. -/
def menuLines : List String :=
  ["  1) Open Door 1", "  2) Close Door 1", "  3) Reset Door 1",
   "  4) Open Door 2", "  5) Close Door 2", "  6) Reset Door 2",
   "  7) Open Door 3", "  8) Close Door 3", "  9) Reset Door 3"]

/-- The verb of a menu line for a command code. -/
def menuVerb (cmd : Nat) : String :=
  if cmd = 1 then "Open" else if cmd = 2 then "Close" else "Reset"

/-- The `switch ((selection - 1) % 3)` of `input_thread`, on a `cmd` that
starts as `0`. -/
def commandOfRemainder (r : Int) : Nat :=
  match r with
  | 0 => 1
  | 1 => 2
  | 2 => 3
  | _ => 0

/-- The loop body of `input_thread` from the parsed `selection` on.
`rc_write` is the outcome of `can_api.WriteMessage`: `none` for
`CANERR_NOERROR`, else the text of `ErrorToString`. -/
def input_selection (rc_write : Option String) (selection : Int) (st : Hmi) : Hmi :=
  if selection < 1 ∨ selection > 9 then
    { st with console := st.console ++ ["Invalid selection."] }
  else
    let door_id : Nat := ((((selection - 1).tdiv 3) + 1) % 256).toNat
    let cmd : Nat := commandOfRemainder ((selection - 1).tmod 3)
    let message := BuildCommandMessage door_id cmd
    let st1 : Hmi := { st with sent := st.sent ++ [message] }
    match rc_write with
    | some text => { st1 with log := Log ("CAN write error: " ++ text) st1.log }
    | none =>
      let cmd_name : String :=
        if cmd = 1 then "OPEN" else if cmd = 2 then "CLOSE" else "RESET_FAULT"
      { st1 with log := Log ("Sent " ++ cmd_name ++ " to door " ++ toString door_id) st1.log }

end HmiApp

/-! ## The door node's command handler -/

namespace DoorNode

/-- C1. The transition table of the command handler.  For a command frame that
passes validation (flags zero, identifier `0x201`, `dlc >= 2`) and carries this
door's id, and for every door state and command code: OPEN (1) starts a move
towards `Open` exactly from `Closed` (new token, state `Moving`, one more
sleeping completion) and otherwise changes nothing; CLOSE (2) starts a move
towards `Closed` exactly from `Open` and otherwise changes nothing;
RESET_FAULT (3) sets the fault code to 0 and the state to `Closed` from any
state, leaving token, obstruction and sleeping completions alone; every other
code changes nothing. -/
theorem rx_frame_transition_table (config : Config) (message : CANAPI_Message_t) (st : Node)
    (hflags : message.sts = 0 ∧ message.xtd = 0 ∧ message.rtr = 0)
    (hid : message.id = kCommandId) (hdlc : 2 ≤ message.dlc)
    (hdoor : (message.byte 0 : Int) = config.door_id) :
    (message.byte 1 = 1 →
      (st.status.state = DoorState.Closed →
        rx_frame config message st =
          { st with
            status := { st.status with state := DoorState.Moving }
            move_token := (st.move_token + 1) % 2 ^ 64
            pending := st.pending ++
              [{ token := (st.move_token + 1) % 2 ^ 64, target := DoorState.Open }]
            log := st.log ++ [ log_prefix config ++ " " ++ "Command OPEN received",
              log_prefix config ++ " " ++ ("Door state -> " ++ "MOVING")] }) ∧
      (st.status.state ≠ DoorState.Closed → rx_frame config message st = st)) ∧
    (message.byte 1 = 2 →
      (st.status.state = DoorState.Open →
        rx_frame config message st =
          { st with
            status := { st.status with state := DoorState.Moving }
            move_token := (st.move_token + 1) % 2 ^ 64
            pending := st.pending ++
              [{ token := (st.move_token + 1) % 2 ^ 64, target := DoorState.Closed }]
            log := st.log ++ [ log_prefix config ++ " " ++ "Command CLOSE received",
              log_prefix config ++ " " ++ ("Door state -> " ++ "MOVING")] }) ∧
      (st.status.state ≠ DoorState.Open → rx_frame config message st = st)) ∧
    (message.byte 1 = 3 →
      (rx_frame config message st).status =
          { st.status with state := DoorState.Closed, fault_code := 0 } ∧
        (rx_frame config message st).move_token = st.move_token ∧
        (rx_frame config message st).pending = st.pending ∧
        (rx_frame config message st).g_running = st.g_running) ∧
    (message.byte 1 ≠ 1 → message.byte 1 ≠ 2 → message.byte 1 ≠ 3 →
      rx_frame config message st = st) := by
  obtain ⟨hsts, hxtd, hrtr⟩ := hflags
  have hdlc2 : ¬ message.dlc < 2 := by omega
  refine ⟨fun h1 => ⟨fun hs => ?_, fun hs => ?_⟩, fun h2 => ⟨fun hs => ?_, fun hs => ?_⟩,
    fun h3 => ?_, fun n1 n2 n3 => ?_⟩
  · simp [rx_frame, hsts, hxtd, hrtr, hid, hdlc2, hdoor, h1, hs, start_move, set_state, Log,
      DoorState.Closed, DoorState.Moving, DoorStateToString]
  · simp [rx_frame, hsts, hxtd, hrtr, hid, hdlc2, hdoor, h1, hs]
  · simp [rx_frame, hsts, hxtd, hrtr, hid, hdlc2, hdoor, h2, hs, start_move, set_state, Log,
      DoorState.Open, DoorState.Moving, DoorStateToString]
  · simp [rx_frame, hsts, hxtd, hrtr, hid, hdlc2, hdoor, h2, hs]
  · obtain ⟨running, ⟨state, fault, obstruction⟩, token, rl, wl, pending, awake, armed,
      log⟩ := st
    simp only [rx_frame, hsts, hxtd, hrtr, hid, hdlc2, hdoor, h3, set_state, set_fault]
    simp
    split_ifs <;> simp_all
  · simp [rx_frame, hsts, hxtd, hrtr, hid, hdlc2, hdoor, n1, n2, n3]

end DoorNode

/-! ## The HMI's status receive logic -/

namespace HmiApp

/-- The resolved door id of a frame in the status identifier range lies in 1..3. -/
theorem resolve_door_id_range (message : CANAPI_Message_t)
    (hlo : kStatusIdBase ≤ message.id) (hhi : message.id ≤ kStatusIdMax) :
    1 ≤ resolve_door_id message ∧ resolve_door_id message ≤ 3 := by
  unfold resolve_door_id
  simp only [kStatusIdBase, kStatusIdMax] at *
  split_ifs with h <;> omega

/-- A door id in 1..3 indexes a three-element table within bounds. -/
theorem vectorAt_of_range (doors : List DoorInfo) (hlen : doors.length = 3) (d : Nat)
    (h1 : 1 ≤ d) (h3 : d ≤ 3) :
    ∃ door, vectorAt doors ((d : Int) - 1) = some door := by
  have hlt : d - 1 < doors.length := by omega
  refine ⟨doors[d - 1], ?_⟩
  have hnn : ¬ ((d : Int) - 1 < 0) := by omega
  have hto : ((d : Int) - 1).toNat = d - 1 := by omega
  simp [vectorAt, hnn, hto, List.getElem?_eq_getElem hlt]

/-- An accepted status frame overwrites the view at the resolved door id and
touches neither the other views nor the frames sent. -/
theorem rx_frame_accepted (now : Int) (message : CANAPI_Message_t) (st : Hmi)
    (hflags : message.sts = 0 ∧ message.xtd = 0 ∧ message.rtr = 0)
    (hlo : kStatusIdBase ≤ message.id) (hhi : message.id ≤ kStatusIdMax)
    (hdlc : 4 ≤ message.dlc) (hlen : st.doors.length = 3) :
    ∃ st1, rx_frame now message st = some st1 ∧
      st1.doors = st.doors.set (resolve_door_id message - 1) (decodedView now message) ∧
      st1.sent = st.sent ∧ st1.console = st.console ∧ st1.g_running = st.g_running := by
  obtain ⟨hsts, hxtd, hrtr⟩ := hflags
  obtain ⟨h1, h3⟩ := resolve_door_id_range message hlo hhi
  obtain ⟨door, hdoor⟩ := vectorAt_of_range st.doors hlen _ h1 h3
  have c1 : ¬ message.id < kStatusIdBase := by omega
  have c2 : ¬ message.id > kStatusIdMax := by omega
  have c3 : ¬ message.dlc < 4 := by omega
  simp only [rx_frame, hsts, hxtd, hrtr, c1, c2, c3, hdoor, decodedView]
  simp only [ne_eq, not_true_eq_false, or_self, if_false]
  split_ifs <;> exact ⟨_, rfl, rfl, rfl, rfl, rfl⟩

end HmiApp

/-- C2. Status frame round trip.  For a door id `d` in 1..3 and every door
status, the frame of the door node's `BuildStatusMessage` has its three flags
zero, an identifier in `0x101..0x103` and `dlc >= 4`; the HMI resolves its door
id to `d`, and receiving it at time `now` stores the same state, obstruction
and fault code in the view of door `d`. -/
theorem status_frame_round_trip (d : Int) (hd1 : 1 ≤ d) (hd3 : d ≤ 3)
    (status : DoorNode.DoorStatus) (now : Int) (st : HmiApp.Hmi)
    (hlen : st.doors.length = 3) :
    (DoorNode.BuildStatusMessage d status).sts = 0 ∧
    (DoorNode.BuildStatusMessage d status).xtd = 0 ∧
    (DoorNode.BuildStatusMessage d status).rtr = 0 ∧
    kStatusIdBase ≤ (DoorNode.BuildStatusMessage d status).id ∧
    (DoorNode.BuildStatusMessage d status).id ≤ HmiApp.kStatusIdMax ∧
    4 ≤ (DoorNode.BuildStatusMessage d status).dlc ∧
    (HmiApp.resolve_door_id (DoorNode.BuildStatusMessage d status) : Int) = d ∧
    ∃ st1, HmiApp.rx_frame now (DoorNode.BuildStatusMessage d status) st = some st1 ∧
      st1.doors[(d - 1).toNat]? =
        some { state := status.state, obstruction := status.obstruction,
               fault_code := status.fault_code, last_update := now } := by
  have hmsg : (DoorNode.BuildStatusMessage d status).sts = 0 ∧
      (DoorNode.BuildStatusMessage d status).xtd = 0 ∧
      (DoorNode.BuildStatusMessage d status).rtr = 0 := ⟨rfl, rfl, rfl⟩
  have hid : (DoorNode.BuildStatusMessage d status).id = kStatusIdBase + (d - 1).toNat := by
    obtain rfl | rfl | rfl : d = 1 ∨ d = 2 ∨ d = 3 := by omega
    all_goals rfl
  have hres : HmiApp.resolve_door_id (DoorNode.BuildStatusMessage d status) = d.toNat := by
    obtain rfl | rfl | rfl : d = 1 ∨ d = 2 ∨ d = 3 := by omega
    all_goals rfl
  have hlo : kStatusIdBase ≤ (DoorNode.BuildStatusMessage d status).id := by omega
  have hhi : (DoorNode.BuildStatusMessage d status).id ≤ HmiApp.kStatusIdMax := by
    rw [hid]; simp only [kStatusIdBase, HmiApp.kStatusIdMax]; omega
  have hdlc : 4 ≤ (DoorNode.BuildStatusMessage d status).dlc := by
    show 4 ≤ 8
    omega
  obtain ⟨st1, hrx, hdoors, -⟩ :=
    HmiApp.rx_frame_accepted now _ st hmsg hlo hhi hdlc hlen
  refine ⟨rfl, rfl, rfl, hlo, hhi, hdlc, by rw [hres]; omega, st1, hrx, ?_⟩
  have hlt : (d - 1).toNat < st.doors.length := by omega
  have hidx : d.toNat - 1 = (d - 1).toNat := by omega
  rw [hdoors, hres, hidx, List.getElem?_set_self hlt]
  rfl

/-- C5. Door id resolution.  For an accepted status frame (flags zero,
identifier `a` in `0x101..0x103`, `dlc >= 4`): when the payload byte `data[3]`
lies outside 1..3 the HMI resolves the door id to `(a - 0x101) + 1` and
overwrites the view at that id; when the byte lies in 1..3 the byte is the
door id and the view at the byte's id is overwritten. -/
theorem HmiApp.rx_frame_resolves_door_id (now : Int) (message : CANAPI_Message_t)
    (st : HmiApp.Hmi)
    (hflags : message.sts = 0 ∧ message.xtd = 0 ∧ message.rtr = 0)
    (hlo : 0x101 ≤ message.id) (hhi : message.id ≤ 0x103)
    (hdlc : 4 ≤ message.dlc) (hlen : st.doors.length = 3) :
    (message.byte 3 < 1 ∨ 3 < message.byte 3 →
      HmiApp.resolve_door_id message = (message.id - 0x101) + 1 ∧
      ∃ st1, HmiApp.rx_frame now message st = some st1 ∧
        st1.doors = st.doors.set (message.id - 0x101) (HmiApp.decodedView now message) ∧
        st1.doors[message.id - 0x101]? = some (HmiApp.decodedView now message)) ∧
    (1 ≤ message.byte 3 ∧ message.byte 3 ≤ 3 →
      HmiApp.resolve_door_id message = message.byte 3 ∧
      ∃ st1, HmiApp.rx_frame now message st = some st1 ∧
        st1.doors = st.doors.set (message.byte 3 - 1) (HmiApp.decodedView now message) ∧
        st1.doors[message.byte 3 - 1]? = some (HmiApp.decodedView now message)) := by
  obtain ⟨st1, hrx, hdoors, -⟩ :=
    HmiApp.rx_frame_accepted now message st hflags hlo hhi hdlc hlen
  constructor
  · intro hout
    have hres : HmiApp.resolve_door_id message = (message.id - 0x101) + 1 := by
      unfold HmiApp.resolve_door_id
      simp only [kStatusIdBase]
      rw [if_pos (by omega)]
      omega
    have hlt : message.id - 0x101 < st.doors.length := by omega
    refine ⟨hres, st1, hrx, ?_, ?_⟩
    · rw [hdoors, hres, Nat.add_sub_cancel]
    · rw [hdoors, hres, Nat.add_sub_cancel]
      exact List.getElem?_set_self hlt
  · intro hin
    have hres : HmiApp.resolve_door_id message = message.byte 3 := by
      unfold HmiApp.resolve_door_id
      simp only []
      rw [if_neg (by omega)]
    have hlt : message.byte 3 - 1 < st.doors.length := by omega
    refine ⟨hres, st1, hrx, ?_, ?_⟩
    · rw [hdoors, hres]
    · rw [hdoors, hres]
      exact List.getElem?_set_self hlt

/-- C6. Frame rejection.  A successfully read frame with one of the flags
`sts`, `xtd`, `rtr` non-zero, or with `dlc` below the minimum (2 at the door,
4 at the HMI), or with an identifier outside the accepted set (`0x201` at the
door, `0x101..0x103` at the HMI) leaves the whole state of the receiver as it
was: at the door the status, the move token, the sleeping completions and the
log; at the HMI the door-view table and the log. -/
theorem frame_rejected (config : DoorNode.Config) (now : Int) (message : CANAPI_Message_t)
    (node : DoorNode.Node) (hmi : HmiApp.Hmi) :
    (message.xtd ≠ 0 ∨ message.rtr ≠ 0 ∨ message.sts ≠ 0 ∨ message.dlc < 2 ∨
        message.id ≠ 0x201 →
      DoorNode.rx_iteration config now (.noerror message) node = node) ∧
    (message.xtd ≠ 0 ∨ message.rtr ≠ 0 ∨ message.sts ≠ 0 ∨ message.dlc < 4 ∨
        message.id < 0x101 ∨ 0x103 < message.id →
      HmiApp.rx_iteration now (.noerror message) hmi = some hmi) := by
  constructor
  · intro h
    simp only [DoorNode.rx_iteration, DoorNode.rx_frame, kCommandId]
    by_cases hf : message.sts ≠ 0 ∨ message.xtd ≠ 0 ∨ message.rtr ≠ 0
    · rw [if_pos hf]
    · rw [if_neg hf, if_pos]
      simp only [not_or, ne_eq, not_not] at hf
      omega
  · intro h
    simp only [HmiApp.rx_iteration, HmiApp.rx_frame, kStatusIdBase, HmiApp.kStatusIdMax]
    by_cases hf : message.sts ≠ 0 ∨ message.xtd ≠ 0 ∨ message.rtr ≠ 0
    · rw [if_pos hf]
    · rw [if_neg hf, if_pos]
      simp only [not_or, ne_eq, not_not] at hf
      omega

/-- C7. A command frame that passes validation (identifier `0x201`, flags
zero, `dlc >= 2`) and whose door-id byte `data[0]` differs from the configured
door id leaves the node as it was, for every command code: state, fault code,
obstruction, move token, sleeping completions and log are unchanged. -/
theorem DoorNode.rx_frame_other_door (config : DoorNode.Config) (now : Int)
    (message : CANAPI_Message_t) (st : DoorNode.Node)
    (hflags : message.sts = 0 ∧ message.xtd = 0 ∧ message.rtr = 0)
    (hid : message.id = 0x201) (hdlc : 2 ≤ message.dlc)
    (hdoor : (message.byte 0 : Int) ≠ config.door_id) :
    DoorNode.rx_iteration config now (.noerror message) st = st := by
  obtain ⟨hsts, hxtd, hrtr⟩ := hflags
  have hdlc2 : ¬ message.dlc < 2 := by omega
  simp [DoorNode.rx_iteration, DoorNode.rx_frame, hsts, hxtd, hrtr, hid, kCommandId, hdlc2,
    hdoor]

/-! ## The HMI's display loop -/

/-- No state name is the text `STALE`. -/
theorem DoorStateToString_ne_stale (state : DoorState) : DoorStateToString state ≠ "STALE" := by
  unfold DoorStateToString
  split <;> decide

/-- The flag `stale` of the display loop, as a condition on the view. -/
theorem HmiApp.stale_iff (now : Int) (info : HmiApp.DoorInfo) :
    HmiApp.stale now info = true ↔
      (info.last_update = 0 ∨ now - info.last_update > milliseconds 500) := by
  simp [HmiApp.stale]

/-- The line of a stale view: `STALE` in the state column, `-` in the last. -/
theorem HmiApp.displayRow_stale (now : Int) (i : Nat) (info : HmiApp.DoorInfo)
    (h : HmiApp.stale now info = true) :
    HmiApp.displayRow now i info =
      "" ++ toString (i + 1) ++ "   " ++ "STALE   " ++ " " ++
        HmiApp.leftw 4 (toString info.obstruction) ++ " " ++
        HmiApp.leftw 5 (toString info.fault_code) ++ " " ++ "-" := by
  have hpad : HmiApp.leftw 8 "STALE" = "STALE   " := by decide
  simp only [HmiApp.displayRow, HmiApp.stateColumn, h, if_true, hpad]

/-- The line of a fresh view: the state name in the state column, `OK` in the
last. -/
theorem HmiApp.displayRow_fresh (now : Int) (i : Nat) (info : HmiApp.DoorInfo)
    (h : ¬ HmiApp.stale now info = true) :
    HmiApp.displayRow now i info =
      "" ++ toString (i + 1) ++ "   " ++ HmiApp.leftw 8 (DoorStateToString info.state) ++ " " ++
        HmiApp.leftw 4 (toString info.obstruction) ++ " " ++
        HmiApp.leftw 5 (toString info.fault_code) ++ " " ++ "OK" := by
  simp only [HmiApp.displayRow, HmiApp.stateColumn, h]
  rfl

/-- A line that ends in `OK` is no line that ends in `-`. -/
theorem HmiApp.ok_line_ne_dash_line (a b : String) : a ++ "OK" ≠ b ++ "-" := by
  intro h
  have hdata := congrArg String.data h
  simp only [String.data_append] at hdata
  have hlast := congrArg List.getLast? hdata
  have hk : a.data ++ ['O', 'K'] = (a.data ++ ['O']) ++ ['K'] := by simp
  rw [hk, List.getLast?_concat, List.getLast?_concat] at hlast
  exact absurd hlast (by decide)

/-- The lines of the table: three header lines, then the line of each view. -/
theorem HmiApp.displayTable_row (now : Int) (snapshot : List HmiApp.DoorInfo) (k : Nat)
    (view : HmiApp.DoorInfo) (hk : snapshot[k]? = some view) :
    (HmiApp.displayTable now snapshot)[3 + k]? = some (HmiApp.displayRow now k view) := by
  have hlt : k < snapshot.length := by
    by_contra hge
    rw [List.getElem?_eq_none (by omega)] at hk
    exact absurd hk (by simp)
  unfold HmiApp.displayTable
  rw [List.getElem?_append_right (by simp)]
  simp only [List.length_cons, List.length_nil]
  have hidx : 3 + k - (0 + 1 + 1 + 1) = k := by omega
  rw [hidx, List.getElem?_zipWith, List.getElem?_range hlt, hk]

/-- C8. Staleness rendering.  For every door view and every clock reading
`now`, the display loop renders the view as stale exactly when `last_update`
is the zero time point or `now - last_update` exceeds 500 ms, whatever the
last known state.  This holds of the string `state` of the loop and of the
line it writes: the line of a stale view carries `STALE` in the state column
and `-` in the last column; the line of any other view carries the name of the
last known state, padded to eight characters (`CLOSED`, `OPEN`, `MOVING`,
`FAULTED` for the four states), and `OK`.  A view updated 600 ms ago is
rendered as `STALE`, also when its state is `Open`.  The table that one pass
writes consists of three header lines and, for each view of the snapshot in
order, that view's line. -/
theorem HmiApp.display_stale_iff (now : Int) (i : Nat) (info : HmiApp.DoorInfo)
    (snapshot : List HmiApp.DoorInfo) :
    (HmiApp.stateColumn now info = "STALE" ↔
      (info.last_update = 0 ∨ now - info.last_update > milliseconds 500)) ∧
    (¬ (info.last_update = 0 ∨ now - info.last_update > milliseconds 500) →
      HmiApp.stateColumn now info = DoorStateToString info.state) ∧
    (HmiApp.displayRow now i info =
        "" ++ toString (i + 1) ++ "   " ++ "STALE   " ++ " " ++
          HmiApp.leftw 4 (toString info.obstruction) ++ " " ++
          HmiApp.leftw 5 (toString info.fault_code) ++ " " ++ "-" ↔
      (info.last_update = 0 ∨ now - info.last_update > milliseconds 500)) ∧
    (¬ (info.last_update = 0 ∨ now - info.last_update > milliseconds 500) →
      HmiApp.displayRow now i info =
        "" ++ toString (i + 1) ++ "   " ++
          HmiApp.leftw 8 (DoorStateToString info.state) ++ " " ++
          HmiApp.leftw 4 (toString info.obstruction) ++ " " ++
          HmiApp.leftw 5 (toString info.fault_code) ++ " " ++ "OK") ∧
    (now - info.last_update = milliseconds 600 →
      HmiApp.stateColumn now info = "STALE" ∧
      HmiApp.displayRow now i info =
        "" ++ toString (i + 1) ++ "   " ++ "STALE   " ++ " " ++
          HmiApp.leftw 4 (toString info.obstruction) ++ " " ++
          HmiApp.leftw 5 (toString info.fault_code) ++ " " ++ "-") ∧
    (DoorStateToString DoorState.Closed = "CLOSED" ∧
      DoorStateToString DoorState.Open = "OPEN" ∧
      DoorStateToString DoorState.Moving = "MOVING" ∧
      DoorStateToString DoorState.Faulted = "FAULTED") ∧
    (HmiApp.leftw 8 (DoorStateToString DoorState.Closed) = "CLOSED  " ∧
      HmiApp.leftw 8 (DoorStateToString DoorState.Open) = "OPEN    " ∧
      HmiApp.leftw 8 (DoorStateToString DoorState.Moving) = "MOVING  " ∧
      HmiApp.leftw 8 (DoorStateToString DoorState.Faulted) = "FAULTED ") ∧
    (HmiApp.displayTable now snapshot).length = 3 + snapshot.length ∧
    (HmiApp.displayTable now snapshot).take 3 =
      ["", "Door Status (STALE if >500ms)", "ID  STATE     OBS  FAULT  UPDATED"] ∧
    (∀ (k : Nat) (view : HmiApp.DoorInfo), snapshot[k]? = some view →
      (HmiApp.displayTable now snapshot)[3 + k]? = some (HmiApp.displayRow now k view)) := by
  have key := HmiApp.stale_iff now info
  have hfresh : ¬ (info.last_update = 0 ∨ now - info.last_update > milliseconds 500) →
      ¬ HmiApp.stale now info = true := fun hn hs => hn (key.mp hs)
  refine ⟨?_, ?_, ?_, ?_, ?_, ⟨rfl, rfl, rfl, rfl⟩,
    ⟨by decide, by decide, by decide, by decide⟩, ?_, ?_,
    fun k view hk => HmiApp.displayTable_row now snapshot k view hk⟩
  · unfold HmiApp.stateColumn
    by_cases h : HmiApp.stale now info = true
    · simp only [h, if_true, true_iff]
      exact key.mp h
    · simp only [h]
      constructor
      · intro hc
        exact absurd hc (DoorStateToString_ne_stale info.state)
      · intro hc
        exact absurd (key.mpr hc) h
  · intro hn
    simp [HmiApp.stateColumn, hfresh hn]
  · constructor
    · intro hrow
      by_contra hn
      rw [HmiApp.displayRow_fresh now i info (hfresh hn)] at hrow
      exact HmiApp.ok_line_ne_dash_line _ _ hrow
    · intro hc
      exact HmiApp.displayRow_stale now i info (key.mpr hc)
  · intro hn
    exact HmiApp.displayRow_fresh now i info (hfresh hn)
  · intro h600
    have h : HmiApp.stale now info = true := by
      apply key.mpr
      right
      rw [h600]
      decide
    exact ⟨by simp [HmiApp.stateColumn, h], HmiApp.displayRow_stale now i info h⟩
  · simp [HmiApp.displayTable]
    omega
  · simp [HmiApp.displayTable]

/-! ## Rate-limited logging -/

/-- Calls inside the window of a limiter that has logged at `t0` write nothing
and count up. -/
theorem DoorNode.logRateLimitedCalls_suppressed (tag message : String) (interval : Int)
    (t0 : Int) (h0 : t0 ≠ 0) (ts : List Int)
    (hwin : ∀ t ∈ ts, t - t0 < milliseconds interval) (k : Nat) (log : List String) :
    DoorNode.logRateLimitedCalls tag message interval ts
        ({ last_log := t0, suppressed := k }, log) =
      ({ last_log := t0,
         suppressed := if ts = [] then k else (k + ts.length) % 2 ^ 64 }, log) := by
  induction ts generalizing k with
  | nil => simp [DoorNode.logRateLimitedCalls]
  | cons t ts ih =>
    have ht : t - t0 < milliseconds interval := hwin t (List.mem_cons_self _ _)
    have hrest : ∀ u ∈ ts, u - t0 < milliseconds interval :=
      fun u hu => hwin u (List.mem_cons_of_mem _ hu)
    have hcall : DoorNode.LogRateLimited tag message { last_log := t0, suppressed := k }
        interval t log = ({ last_log := t0, suppressed := (k + 1) % 2 ^ 64 }, log) := by
      unfold DoorNode.LogRateLimited
      rw [if_neg]
      simp only [not_or, ge_iff_le, not_le]
      exact ⟨h0, ht⟩
    have hfold := ih hrest ((k + 1) % 2 ^ 64)
    unfold DoorNode.logRateLimitedCalls at hfold ⊢
    rw [List.foldl_cons, hcall, hfold]
    by_cases hts : ts = []
    · simp [hts]
    · simp only [hts, if_false, List.length_cons, reduceCtorEq]
      congr 2
      omega

/-- C9, as the code has it.  On a fresh `RateLimiter`, 20 consecutive calls of
`LogRateLimited` with a 1000 ms interval, the first at a clock reading `t0`
other than zero and the other 19 less than 1000 ms after it, write exactly one
line, the one of the first call, which carries no annotation, and leave the
count of suppressed calls at 19.  The annotation comes with the next line: a
21st call 1000 ms or more after the first writes the message followed by
` (19 similar errors suppressed)` and resets the count. -/
theorem DoorNode.rate_limited_window (tag message : String) (t0 : Int) (ts : List Int)
    (t1 : Int) (h0 : t0 ≠ 0) (hlen : ts.length = 19)
    (hwin : ∀ t ∈ ts, t - t0 < milliseconds 1000)
    (h1 : t1 - t0 ≥ milliseconds 1000) :
    DoorNode.logRateLimitedCalls tag message 1000 (t0 :: ts) ({}, []) =
      ({ last_log := t0, suppressed := 19 }, [tag ++ " " ++ message]) ∧
    DoorNode.logRateLimitedCalls tag message 1000 ((t0 :: ts) ++ [t1]) ({}, []) =
      ({ last_log := t1, suppressed := 0 },
        [tag ++ " " ++ message,
         tag ++ " " ++ (message ++ " (19 similar errors suppressed)")]) := by
  have hne : ts ≠ [] := by
    intro h
    rw [h] at hlen
    simp at hlen
  have hfirst : DoorNode.LogRateLimited tag message {} 1000 t0 [] =
      ({ last_log := t0, suppressed := 0 }, [tag ++ " " ++ message]) := by
    simp [DoorNode.LogRateLimited, DoorNode.Log]
  have hrest := DoorNode.logRateLimitedCalls_suppressed tag message 1000 t0 h0 ts hwin 0
    [tag ++ " " ++ message]
  simp only [hne, if_false, hlen] at hrest
  have h20 : DoorNode.logRateLimitedCalls tag message 1000 (t0 :: ts) ({}, []) =
      ({ last_log := t0, suppressed := 19 }, [tag ++ " " ++ message]) := by
    unfold DoorNode.logRateLimitedCalls at hrest ⊢
    rw [List.foldl_cons, hfirst, hrest]
    rfl
  refine ⟨h20, ?_⟩
  unfold DoorNode.logRateLimitedCalls at h20 ⊢
  rw [List.foldl_append, h20]
  have hs : " (" ++ toString (19 : Nat) ++ " similar errors suppressed)" =
      " (19 similar errors suppressed)" := by decide
  simp [DoorNode.LogRateLimited, DoorNode.Log, h1, hs]

/-! ## The HMI's command dispatch -/

/-- C10. Command dispatch.  For a menu selection `s` in 1..9 the input loop
hands exactly one frame to the bus: identifier `0x201`, flags zero, `dlc` 8 and
payload `[door_id, command_code, 0, 0, 0, 0, 0, 0]` with
`door_id = (s - 1) / 3 + 1` in 1..3 and `command_code = (s - 1) mod 3 + 1` in
1..3 (1 OPEN, 2 CLOSE, 3 RESET_FAULT), which is the door and the verb of menu
line `s`.  For a selection outside 1..9 no frame is handed to the bus and
nothing is logged. -/
theorem HmiApp.input_selection_dispatch (rc_write : Option String) (selection : Int)
    (st : HmiApp.Hmi) :
    (1 ≤ selection ∧ selection ≤ 9 →
      (HmiApp.input_selection rc_write selection st).sent = st.sent ++
        [{ id := 0x201, xtd := 0, rtr := 0, sts := 0, dlc := 8,
           data := [((selection - 1) / 3 + 1).toNat, ((selection - 1) % 3 + 1).toNat,
                    0, 0, 0, 0, 0, 0] }] ∧
      1 ≤ (selection - 1) / 3 + 1 ∧ (selection - 1) / 3 + 1 ≤ 3 ∧
      1 ≤ (selection - 1) % 3 + 1 ∧ (selection - 1) % 3 + 1 ≤ 3 ∧
      HmiApp.menuLines[(selection - 1).toNat]? =
        some ("  " ++ toString selection ++ ") " ++
          HmiApp.menuVerb ((selection - 1) % 3 + 1).toNat ++ " Door " ++
          toString ((selection - 1) / 3 + 1))) ∧
    (selection < 1 ∨ 9 < selection →
      (HmiApp.input_selection rc_write selection st).sent = st.sent ∧
      (HmiApp.input_selection rc_write selection st).log = st.log ∧
      (HmiApp.input_selection rc_write selection st).doors = st.doors) := by
  constructor
  · rintro ⟨h1, h9⟩
    have hin : ¬ (selection < 1 ∨ selection > 9) := by omega
    have hsent : (HmiApp.input_selection rc_write selection st).sent = st.sent ++
        [HmiApp.BuildCommandMessage ((((selection - 1).tdiv 3) + 1) % 256).toNat
          (HmiApp.commandOfRemainder ((selection - 1).tmod 3))] := by
      unfold HmiApp.input_selection
      rw [if_neg hin]
      cases rc_write <;> rfl
    have hrest : HmiApp.BuildCommandMessage ((((selection - 1).tdiv 3) + 1) % 256).toNat
          (HmiApp.commandOfRemainder ((selection - 1).tmod 3)) =
        { id := 0x201, xtd := 0, rtr := 0, sts := 0, dlc := 8,
          data := [((selection - 1) / 3 + 1).toNat, ((selection - 1) % 3 + 1).toNat,
                   0, 0, 0, 0, 0, 0] } ∧
        1 ≤ (selection - 1) / 3 + 1 ∧ (selection - 1) / 3 + 1 ≤ 3 ∧
        1 ≤ (selection - 1) % 3 + 1 ∧ (selection - 1) % 3 + 1 ≤ 3 ∧
        HmiApp.menuLines[(selection - 1).toNat]? =
          some ("  " ++ toString selection ++ ") " ++
            HmiApp.menuVerb ((selection - 1) % 3 + 1).toNat ++ " Door " ++
            toString ((selection - 1) / 3 + 1)) := by
      interval_cases selection <;> decide
    exact ⟨by rw [hsent, hrest.1], hrest.2⟩
  · intro hout
    have hout2 : selection < 1 ∨ selection > 9 := by omega
    unfold HmiApp.input_selection
    rw [if_pos hout2]
    exact ⟨rfl, rfl, rfl⟩

/-! ## Moves and their completion -/

namespace DoorNode

/-- After `set_state` the state is the requested one. -/
theorem set_state_state (config : Config) (next : DoorState) (st : Node) :
    (set_state config next st).status.state = next := by
  unfold set_state
  split_ifs with h
  · rfl
  · exact not_not.mp h

/-- The lambda `set_state` leaves the token alone. -/
theorem set_state_move_token (config : Config) (next : DoorState) (st : Node) :
    (set_state config next st).move_token = st.move_token := by
  unfold set_state
  split_ifs <;> rfl

/-- After `start_move` the state is `Moving`. -/
theorem start_move_state (config : Config) (target : DoorState) (st : Node) :
    (start_move config target st).status.state = DoorState.Moving := by
  simp only [start_move]
  exact set_state_state config DoorState.Moving _

/-- The token after `start_move`. -/
theorem start_move_move_token (config : Config) (target : DoorState) (st : Node) :
    (start_move config target st).move_token = (st.move_token + 1) % 2 ^ 64 := by
  simp only [start_move, set_state_move_token]

/-- The lambda `set_fault` leaves the token alone. -/
theorem set_fault_move_token (config : Config) (fault_code : Nat) (st : Node) :
    (set_fault config fault_code st).move_token = st.move_token := by
  unfold set_fault
  split_ifs <;> rfl

/-- The lambda `set_state` leaves the sleeping completions alone. -/
theorem set_state_pending (config : Config) (next : DoorState) (st : Node) :
    (set_state config next st).pending = st.pending := by
  unfold set_state
  split_ifs <;> rfl

/-- The lambda `set_state` leaves the completions past their first check alone. -/
theorem set_state_awake (config : Config) (next : DoorState) (st : Node) :
    (set_state config next st).awake = st.awake := by
  unfold set_state
  split_ifs <;> rfl

/-- The lambda `set_state` leaves the completions past their checks alone. -/
theorem set_state_armed (config : Config) (next : DoorState) (st : Node) :
    (set_state config next st).armed = st.armed := by
  unfold set_state
  split_ifs <;> rfl

/-- A sleeping completion that wakes up while the process runs goes on to its
token check. -/
theorem step_wake_running (config : Config) (s : Node) (i : Nat) (timer : Timer)
    (hrun : s.g_running = true) (hi : s.pending[i]? = some timer) :
    step config s (.wake i) =
      { s with pending := s.pending.eraseIdx i, awake := s.awake ++ [timer] } := by
  simp only [step, hi, completion_wake, hrun]
  rfl

/-- A completion that finds its token equal to `move_token` goes on to
`set_state`. -/
theorem step_check_current (config : Config) (s : Node) (k : Nat) (timer : Timer)
    (hk : s.awake[k]? = some timer) (htok : s.move_token = timer.token) :
    step config s (.check k) =
      { s with awake := s.awake.eraseIdx k, armed := s.armed ++ [timer] } := by
  simp only [step, hk, completion_check, htok]
  simp

/-- A completion that finds another token in `move_token` returns. -/
theorem step_check_superseded (config : Config) (s : Node) (k : Nat) (timer : Timer)
    (hk : s.awake[k]? = some timer) (htok : s.move_token ≠ timer.token) :
    step config s (.check k) = { s with awake := s.awake.eraseIdx k } := by
  simp only [step, hk, completion_check]
  rw [if_pos htok]

/-- The last step of a completion sets the state to its target. -/
theorem step_act_state (config : Config) (s : Node) (l : Nat) (timer : Timer)
    (hl : s.armed[l]? = some timer) :
    (step config s (.act l)).status.state = timer.target := by
  simp only [step, hl, completion_act]
  exact set_state_state config timer.target _

/-- The three steps of a sleeping completion, taken in a row while the process
runs and its token is the current one, set the state to its target. -/
theorem completes_state (config : Config) (s : Node) (i : Nat) (timer : Timer)
    (hrun : s.g_running = true) (htok : s.move_token = timer.token)
    (hi : s.pending[i]? = some timer) :
    (run config s (completes s i)).status.state = timer.target := by
  have h1 := step_wake_running config s i timer hrun hi
  have h2 := step_check_current config
    { s with pending := s.pending.eraseIdx i, awake := s.awake ++ [timer] }
    s.awake.length timer (by simp) htok
  simp only [run, completes, List.foldl_cons, List.foldl_nil, h1, h2]
  exact step_act_state config _ _ timer (by simp)

/-- C3 fails on the code.  Door 1 starts `Closed` and accepts OPEN (token 1).
After a RESET_FAULT the completion of that move wakes up and passes both
checks: the process runs and token 1 is the current one.  Before it calls
`set_state`, a second OPEN is accepted: token 2, state `Moving`, the
completion of the second move asleep.  The first completion then calls
`set_state(Open)`: the state changes from `Moving` to `Open` and a line is
logged while the current token is 2 and the completion carries token 1.  Had
the second OPEN come before the token check, the first completion would have
returned and the state would have stayed `Moving`. -/
theorem superseded_completion_writes :
    (run { door_id := 1 } (Node.start { door_id := 1 })
      [.read 0 (.noerror (commandFrame 1 1)), .read 0 (.noerror (commandFrame 1 3)),
       .wake 0, .check 0, .read 0 (.noerror (commandFrame 1 1))]).status.state =
      DoorState.Moving ∧
    (run { door_id := 1 } (Node.start { door_id := 1 })
      [.read 0 (.noerror (commandFrame 1 1)), .read 0 (.noerror (commandFrame 1 3)),
       .wake 0, .check 0, .read 0 (.noerror (commandFrame 1 1))]).move_token = 2 ∧
    (run { door_id := 1 } (Node.start { door_id := 1 })
      [.read 0 (.noerror (commandFrame 1 1)), .read 0 (.noerror (commandFrame 1 3)),
       .wake 0, .check 0, .read 0 (.noerror (commandFrame 1 1))]).armed =
      [{ token := 1, target := DoorState.Open }] ∧
    (run { door_id := 1 } (Node.start { door_id := 1 })
      [.read 0 (.noerror (commandFrame 1 1)), .read 0 (.noerror (commandFrame 1 3)),
       .wake 0, .check 0, .read 0 (.noerror (commandFrame 1 1))]).pending =
      [{ token := 2, target := DoorState.Open }] ∧
    (run { door_id := 1 } (Node.start { door_id := 1 })
      [.read 0 (.noerror (commandFrame 1 1)), .read 0 (.noerror (commandFrame 1 3)),
       .wake 0, .check 0, .read 0 (.noerror (commandFrame 1 1)), .act 0]).status.state =
      DoorState.Open ∧
    (run { door_id := 1 } (Node.start { door_id := 1 })
      [.read 0 (.noerror (commandFrame 1 1)), .read 0 (.noerror (commandFrame 1 3)),
       .wake 0, .check 0, .read 0 (.noerror (commandFrame 1 1)), .act 0]).move_token = 2 ∧
    (run { door_id := 1 } (Node.start { door_id := 1 })
      [.read 0 (.noerror (commandFrame 1 1)), .read 0 (.noerror (commandFrame 1 3)),
       .wake 0, .check 0, .read 0 (.noerror (commandFrame 1 1)), .act 0]).pending =
      [{ token := 2, target := DoorState.Open }] ∧
    (run { door_id := 1 } (Node.start { door_id := 1 })
      [.read 0 (.noerror (commandFrame 1 1)), .read 0 (.noerror (commandFrame 1 3)),
       .wake 0, .check 0, .read 0 (.noerror (commandFrame 1 1)), .act 0]).log.getLast? =
      some "DoorNode[1] Door state -> OPEN" ∧
    (run { door_id := 1 } (Node.start { door_id := 1 })
      [.read 0 (.noerror (commandFrame 1 1)), .read 0 (.noerror (commandFrame 1 3)),
       .wake 0, .read 0 (.noerror (commandFrame 1 1)), .check 0, .act 0]).status.state =
      DoorState.Moving := by
  decide

/-- C9 as stated fails.  Twenty calls on a fresh limiter, one millisecond
apart from one second after the clock's epoch on, write one line, and that line
is the bare message: the annotation with the count 19 is not on it. -/
theorem rate_limited_line_not_annotated :
    logRateLimitedCalls "DoorNode[1]" "CAN read error: CAN error -1" 1000
        ((List.range 20).map (fun i => (1000000000 : Int) + i * 1000000)) ({}, []) =
      ({ last_log := 1000000000, suppressed := 19 },
        ["DoorNode[1] CAN read error: CAN error -1"]) ∧
    (logRateLimitedCalls "DoorNode[1]" "CAN read error: CAN error -1" 1000
        ((List.range 20).map (fun i => (1000000000 : Int) + i * 1000000)) ({}, [])).2 ≠
      ["DoorNode[1] CAN read error: CAN error -1 (19 similar errors suppressed)"] := by
  decide

/-! ### Instances -/

/-- An instance of C1: door 2, freshly started, accepts OPEN and ignores CLOSE. -/
theorem rx_frame_transition_table_witness :
    ((commandFrame 2 1).sts = 0 ∧ (commandFrame 2 1).xtd = 0 ∧ (commandFrame 2 1).rtr = 0) ∧
    (commandFrame 2 1).id = kCommandId ∧ 2 ≤ (commandFrame 2 1).dlc ∧
    ((commandFrame 2 1).byte 0 : Int) = ({ door_id := 2 } : Config).door_id ∧
    (rx_frame { door_id := 2 } (commandFrame 2 1) (Node.start { door_id := 2 })).status.state =
      DoorState.Moving ∧
    rx_frame { door_id := 2 } (commandFrame 2 2) (Node.start { door_id := 2 }) =
      Node.start { door_id := 2 } :=
  ⟨by decide, by decide, by decide, by decide,
    by rw [((rx_frame_transition_table { door_id := 2 } (commandFrame 2 1)
      (Node.start { door_id := 2 }) (by decide) (by decide) (by decide) (by decide)).1
      (by decide)).1 (by decide)],
    ((rx_frame_transition_table { door_id := 2 } (commandFrame 2 2)
      (Node.start { door_id := 2 }) (by decide) (by decide) (by decide) (by decide)).2.1
      (by decide)).2 (by decide)⟩

/-- An instance of C7: door 1, faulted, drops a RESET_FAULT for door 2. -/
theorem rx_frame_other_door_witness :
    ((commandFrame 2 3).sts = 0 ∧ (commandFrame 2 3).xtd = 0 ∧ (commandFrame 2 3).rtr = 0) ∧
    (commandFrame 2 3).id = 0x201 ∧ 2 ≤ (commandFrame 2 3).dlc ∧
    ((commandFrame 2 3).byte 0 : Int) ≠ ({ door_id := 1 } : Config).door_id ∧
    rx_iteration { door_id := 1 } 0 (.noerror (commandFrame 2 3))
        { status := { state := DoorState.Faulted, fault_code := 5 } } =
      { status := { state := DoorState.Faulted, fault_code := 5 } } :=
  ⟨by decide, by decide, by decide, by decide,
    rx_frame_other_door { door_id := 1 } 0 (commandFrame 2 3)
      { status := { state := DoorState.Faulted, fault_code := 5 } }
      (by decide) (by decide) (by decide) (by decide)⟩

/-- An instance of C9 as amended: one call at 1.0 s, nineteen at 1.5 s, one at 2.0 s. -/
theorem rate_limited_window_witness :
    (1000000000 : Int) ≠ 0 ∧ (List.replicate 19 (1500000000 : Int)).length = 19 ∧
    (∀ t ∈ List.replicate 19 (1500000000 : Int), t - 1000000000 < milliseconds 1000) ∧
    (2000000000 : Int) - 1000000000 ≥ milliseconds 1000 ∧
    logRateLimitedCalls "DoorNode[1]" "CAN read error: CAN error -1" 1000
        ((1000000000 :: List.replicate 19 1500000000) ++ [2000000000]) ({}, []) =
      ({ last_log := 2000000000, suppressed := 0 },
        ["DoorNode[1]" ++ " " ++ "CAN read error: CAN error -1",
         "DoorNode[1]" ++ " " ++
           ("CAN read error: CAN error -1" ++ " (19 similar errors suppressed)")]) :=
  ⟨by decide, by decide, by decide, by decide,
    (rate_limited_window "DoorNode[1]" "CAN read error: CAN error -1" 1000000000
      (List.replicate 19 1500000000) 2000000000 (by decide) (by decide) (by decide)
      (by decide)).2⟩

end DoorNode

/-- An instance of C2: the status of door 2, open, obstructed, fault code 7. -/
theorem status_frame_round_trip_witness :
    (1 : Int) ≤ 2 ∧ (2 : Int) ≤ 3 ∧ ({} : HmiApp.Hmi).doors.length = 3 ∧
    (HmiApp.resolve_door_id (DoorNode.BuildStatusMessage 2
      { state := DoorState.Open, fault_code := 7, obstruction := 1 }) : Int) = 2 ∧
    ∃ st1, HmiApp.rx_frame 5 (DoorNode.BuildStatusMessage 2
        { state := DoorState.Open, fault_code := 7, obstruction := 1 }) {} = some st1 ∧
      st1.doors[((2 : Int) - 1).toNat]? =
        some { state := DoorState.Open, obstruction := 1, fault_code := 7, last_update := 5 } :=
  ⟨by decide, by decide, by decide,
    (status_frame_round_trip 2 (by decide) (by decide)
      { state := DoorState.Open, fault_code := 7, obstruction := 1 } 5 {}
      (by decide)).2.2.2.2.2.2.1,
    (status_frame_round_trip 2 (by decide) (by decide)
      { state := DoorState.Open, fault_code := 7, obstruction := 1 } 5 {}
      (by decide)).2.2.2.2.2.2.2⟩

/-- An instance of C5: identifier `0x102` with the payload byte 9 resolves to door 2. -/
theorem HmiApp.rx_frame_resolves_door_id_witness :
    (0 = 0 ∧ 0 = 0 ∧ 0 = 0) ∧ 0x101 ≤ 0x102 ∧ 0x102 ≤ 0x103 ∧ 4 ≤ 8 ∧
    ({} : HmiApp.Hmi).doors.length = 3 ∧
    HmiApp.resolve_door_id
      { id := 0x102, xtd := 0, rtr := 0, sts := 0, dlc := 8,
        data := [1, 0, 0, 9, 0, 0, 0, 0] } = (0x102 - 0x101) + 1 :=
  ⟨by decide, by decide, by decide, by decide, by decide,
    ((HmiApp.rx_frame_resolves_door_id 5
      { id := 0x102, xtd := 0, rtr := 0, sts := 0, dlc := 8, data := [1, 0, 0, 9, 0, 0, 0, 0] }
      {} (by decide) (by decide) (by decide) (by decide) (by decide)).1 (by decide)).1⟩

/-- An instance of C6: an extended command frame at the door, a three-byte
status frame at the HMI. -/
theorem frame_rejected_witness :
    DoorNode.rx_iteration { door_id := 1 } 0
        (.noerror { id := 0x201, xtd := 1, rtr := 0, sts := 0, dlc := 8,
                    data := [1, 1, 0, 0, 0, 0, 0, 0] })
        (DoorNode.Node.start { door_id := 1 }) = DoorNode.Node.start { door_id := 1 } ∧
    HmiApp.rx_iteration 5
        (.noerror { id := 0x101, xtd := 0, rtr := 0, sts := 0, dlc := 3,
                    data := [1, 0, 0, 1, 0, 0, 0, 0] }) {} = some {} :=
  ⟨(frame_rejected { door_id := 1 } 0
      { id := 0x201, xtd := 1, rtr := 0, sts := 0, dlc := 8, data := [1, 1, 0, 0, 0, 0, 0, 0] }
      (DoorNode.Node.start { door_id := 1 }) {}).1 (by decide),
    (frame_rejected { door_id := 1 } 5
      { id := 0x101, xtd := 0, rtr := 0, sts := 0, dlc := 3, data := [1, 0, 0, 1, 0, 0, 0, 0] }
      (DoorNode.Node.start { door_id := 1 }) {}).2 (by decide)⟩

/-- An instance of C8: an open door last seen 600 ms ago, and an open door
last seen 200 ms ago, as second line of the table. -/
theorem HmiApp.display_stale_iff_witness :
    (700000000 : Int) - 100000000 = milliseconds 600 ∧
    ¬ ((500000000 : Int) = 0 ∨ (700000000 : Int) - 500000000 > milliseconds 500) ∧
    HmiApp.displayRow 700000000 1
      { state := DoorState.Open, last_update := 100000000 } = "2   STALE    0    0     -" ∧
    HmiApp.displayRow 700000000 1
      { state := DoorState.Open, last_update := 500000000 } = "2   OPEN     0    0     OK" :=
  ⟨by decide, by decide,
    ((HmiApp.display_stale_iff 700000000 1
      { state := DoorState.Open, last_update := 100000000 } []).2.2.2.2.1 (by decide)).2,
    (HmiApp.display_stale_iff 700000000 1
      { state := DoorState.Open, last_update := 500000000 } []).2.2.2.1 (by decide)⟩

/-- An instance of C10: selection 5 is CLOSE for door 2, selection 10 sends nothing. -/
theorem HmiApp.input_selection_dispatch_witness :
    ((1 : Int) ≤ 5 ∧ (5 : Int) ≤ 9) ∧
    (HmiApp.input_selection none 5 {}).sent =
      [{ id := 0x201, xtd := 0, rtr := 0, sts := 0, dlc := 8,
         data := [2, 2, 0, 0, 0, 0, 0, 0] }] ∧
    (HmiApp.input_selection none 10 {}).sent = [] :=
  ⟨by decide,
    ((HmiApp.input_selection_dispatch none 5 {}).1 (by decide)).1,
    ((HmiApp.input_selection_dispatch none 10 {}).2 (by decide)).1⟩

/-! ## States within reach of the command set -/

namespace DoorNode

/-- The lambda `set_fault` leaves the door state alone. -/
theorem set_fault_state (config : Config) (fault_code : Nat) (st : Node) :
    (set_fault config fault_code st).status.state = st.status.state := by
  unfold set_fault
  split_ifs <;> rfl

/-- The lambda `set_fault` leaves the sleeping completions alone. -/
theorem set_fault_pending (config : Config) (fault_code : Nat) (st : Node) :
    (set_fault config fault_code st).pending = st.pending := by
  unfold set_fault
  split_ifs <;> rfl

/-- The lambda `set_fault` leaves the completions past their first check alone. -/
theorem set_fault_awake (config : Config) (fault_code : Nat) (st : Node) :
    (set_fault config fault_code st).awake = st.awake := by
  unfold set_fault
  split_ifs <;> rfl

/-- The lambda `set_fault` leaves the completions past their checks alone. -/
theorem set_fault_armed (config : Config) (fault_code : Nat) (st : Node) :
    (set_fault config fault_code st).armed = st.armed := by
  unfold set_fault
  split_ifs <;> rfl

/-- The sleeping completions after `start_move`. -/
theorem start_move_pending (config : Config) (target : DoorState) (st : Node) :
    (start_move config target st).pending =
      st.pending ++ [{ token := (st.move_token + 1) % 2 ^ 64, target := target }] := by
  simp only [start_move, set_state_pending]

/-- The lambda `start_move` leaves the completions past their first check alone. -/
theorem start_move_awake (config : Config) (target : DoorState) (st : Node) :
    (start_move config target st).awake = st.awake := by
  simp only [start_move, set_state_awake]

/-- The lambda `start_move` leaves the completions past their checks alone. -/
theorem start_move_armed (config : Config) (target : DoorState) (st : Node) :
    (start_move config target st).armed = st.armed := by
  simp only [start_move, set_state_armed]

/-- A move towards `Open` or `Closed` keeps the node within the command states. -/
theorem start_move_commandStates (config : Config) (target : DoorState) (st : Node)
    (htarget : target = DoorState.Open ∨ target = DoorState.Closed)
    (h : commandStates st) : commandStates (start_move config target st) := by
  refine ⟨Or.inr (Or.inr (start_move_state config target st)), ?_, ?_, ?_⟩
  · intro timer hmem
    rw [start_move_pending, List.mem_append, List.mem_singleton] at hmem
    rcases hmem with hold | hnew
    · exact h.2.1 timer hold
    · rw [hnew]
      exact htarget
  · rw [start_move_awake]
    exact h.2.2.1
  · rw [start_move_armed]
    exact h.2.2.2

/-- A received frame keeps the node within the command states. -/
theorem rx_frame_commandStates (config : Config) (message : CANAPI_Message_t) (st : Node)
    (h : commandStates st) : commandStates (rx_frame config message st) := by
  have hlog : ∀ line : String,
      commandStates { st with log := Log ( log_prefix config) line st.log } :=
    fun _ => h
  simp only [rx_frame]
  split_ifs
  all_goals first
    | exact h
    | exact start_move_commandStates config _ _ (Or.inl rfl) (hlog _)
    | exact start_move_commandStates config _ _ (Or.inr rfl) (hlog _)
    | skip
  refine ⟨Or.inl (set_state_state config _ _), ?_, ?_, ?_⟩
  · rw [set_state_pending, set_fault_pending]
    exact h.2.1
  · rw [set_state_awake, set_fault_awake]
    exact h.2.2.1
  · rw [set_state_armed, set_fault_armed]
    exact h.2.2.2

/-- Every step keeps the node within the command states. -/
theorem step_commandStates (config : Config) (st : Node) (ev : Event)
    (h : commandStates st) : commandStates (step config st ev) := by
  cases ev with
  | read now rc_read =>
    cases rc_read with
    | noerror message => exact rx_frame_commandStates config message st h
    | rx_empty => exact h
    | timeout => exact h
    | failure text => exact h
  | wake i =>
    simp only [step]
    cases hp : st.pending[i]? with
    | none => exact h
    | some timer =>
      have hrest : commandStates { st with pending := st.pending.eraseIdx i } :=
        ⟨h.1, fun t ht => h.2.1 t (List.mem_of_mem_eraseIdx ht), h.2.2.1, h.2.2.2⟩
      have htarget := h.2.1 timer (List.getElem?_mem hp)
      show commandStates (completion_wake timer { st with pending := st.pending.eraseIdx i })
      unfold completion_wake
      split_ifs
      · exact hrest
      · refine ⟨hrest.1, hrest.2.1, ?_, hrest.2.2.2⟩
        intro t ht
        rw [List.mem_append, List.mem_singleton] at ht
        rcases ht with hold | hnew
        · exact h.2.2.1 t hold
        · rw [hnew]
          exact htarget
  | check i =>
    simp only [step]
    cases hp : st.awake[i]? with
    | none => exact h
    | some timer =>
      have hrest : commandStates { st with awake := st.awake.eraseIdx i } :=
        ⟨h.1, h.2.1, fun t ht => h.2.2.1 t (List.mem_of_mem_eraseIdx ht), h.2.2.2⟩
      have htarget := h.2.2.1 timer (List.getElem?_mem hp)
      show commandStates (completion_check timer { st with awake := st.awake.eraseIdx i })
      unfold completion_check
      split_ifs
      · exact hrest
      · refine ⟨hrest.1, hrest.2.1, hrest.2.2.1, ?_⟩
        intro t ht
        rw [List.mem_append, List.mem_singleton] at ht
        rcases ht with hold | hnew
        · exact h.2.2.2 t hold
        · rw [hnew]
          exact htarget
  | act i =>
    simp only [step]
    cases hp : st.armed[i]? with
    | none => exact h
    | some timer =>
      have hrest : commandStates { st with armed := st.armed.eraseIdx i } :=
        ⟨h.1, h.2.1, h.2.2.1, fun t ht => h.2.2.2 t (List.mem_of_mem_eraseIdx ht)⟩
      have htarget := h.2.2.2 timer (List.getElem?_mem hp)
      show commandStates (completion_act config timer { st with armed := st.armed.eraseIdx i })
      unfold completion_act
      refine ⟨?_, ?_, ?_, ?_⟩
      · rw [set_state_state]
        rcases htarget with ho | hc
        · exact Or.inr (Or.inl ho)
        · exact Or.inl hc
      · rw [set_state_pending]
        exact hrest.2.1
      · rw [set_state_awake]
        exact hrest.2.2.1
      · rw [set_state_armed]
        exact hrest.2.2.2
  | stop => exact h

/-- Every sequence of steps keeps the node within the command states. -/
theorem run_commandStates (config : Config) (evs : List Event) (st : Node)
    (h : commandStates st) : commandStates (run config st evs) := by
  induction evs generalizing st with
  | nil => exact h
  | cons ev evs ih => exact ih (step config st ev) (step_commandStates config st ev h)

/-- C11. `Faulted` is out of reach of the command set.  From the state in which
`main` starts its threads (door `Closed`, token 0, nothing asleep), after any
finite sequence of receive-loop iterations (frames of any identifier, flags,
length, door id and command code, empty reads, timeouts, read errors), steps
of completion threads (wake-up, token check, `set_state`) and a shutdown, in
any order, the door is `Closed`, `Open` or `Moving`, hence not `Faulted`. -/
theorem faulted_unreachable (config : Config) (evs : List Event) :
    (run config (Node.start config) evs).status.state ≠ DoorState.Faulted ∧
    ((run config (Node.start config) evs).status.state = DoorState.Closed ∨
      (run config (Node.start config) evs).status.state = DoorState.Open ∨
      (run config (Node.start config) evs).status.state = DoorState.Moving) := by
  have hstart : commandStates (Node.start config) :=
    ⟨Or.inl rfl, fun timer hmem => absurd hmem (List.not_mem_nil timer),
      fun timer hmem => absurd hmem (List.not_mem_nil timer),
      fun timer hmem => absurd hmem (List.not_mem_nil timer)⟩
  have hrun := (run_commandStates config evs (Node.start config) hstart).1
  refine ⟨?_, hrun⟩
  rcases hrun with h | h | h <;> rw [h] <;> decide

/-- C13. RESET_FAULT does not cancel a move in flight.  Let a valid
RESET_FAULT for this door arrive while the completion of the current move, with
token `t` and target `T`, sleeps at position `i`.  The handler leaves the
token, the completion threads and `g_running` as they were, and the door is
`Closed` when it returns.  If the process runs, the three steps of that
completion right after the reset set the state to `T`, and so do its three
steps from any later state in which the token is still `t` (no further move
started), the process runs and the completion still sleeps.  With other steps
in between the same holds step by step: woken while the process runs the
completion goes on to its token check, checked while the token is `t` it goes
on to `set_state`, and its `set_state` leaves the state at `T`. -/
theorem reset_keeps_move (config : Config) (message : CANAPI_Message_t) (st : Node)
    (i t : Nat) (T : DoorState)
    (hflags : message.sts = 0 ∧ message.xtd = 0 ∧ message.rtr = 0)
    (hid : message.id = kCommandId) (hdlc : 2 ≤ message.dlc)
    (hdoor : (message.byte 0 : Int) = config.door_id) (hcmd : message.byte 1 = 3)
    (hpend : st.pending[i]? = some { token := t, target := T })
    (htok : st.move_token = t) :
    (rx_frame config message st).status.state = DoorState.Closed ∧
    (rx_frame config message st).move_token = st.move_token ∧
    (rx_frame config message st).pending = st.pending ∧
    (rx_frame config message st).awake = st.awake ∧
    (rx_frame config message st).armed = st.armed ∧
    (rx_frame config message st).g_running = st.g_running ∧
    (st.g_running = true →
      (run config (rx_frame config message st)
        (completes (rx_frame config message st) i)).status.state = T) ∧
    (∀ (evs : List Event) (j : Nat),
      (run config (rx_frame config message st) evs).move_token = t →
      (run config (rx_frame config message st) evs).g_running = true →
      (run config (rx_frame config message st) evs).pending[j]? =
        some { token := t, target := T } →
      (run config (run config (rx_frame config message st) evs)
        (completes (run config (rx_frame config message st) evs) j)).status.state = T) ∧
    (∀ (m : Node) (j : Nat), m.g_running = true →
      m.pending[j]? = some { token := t, target := T } →
      step config m (.wake j) =
        { m with pending := m.pending.eraseIdx j,
                 awake := m.awake ++ [{ token := t, target := T }] }) ∧
    (∀ (m : Node) (k : Nat), m.move_token = t →
      m.awake[k]? = some { token := t, target := T } →
      step config m (.check k) =
        { m with awake := m.awake.eraseIdx k,
                 armed := m.armed ++ [{ token := t, target := T }] }) ∧
    (∀ (m : Node) (l : Nat), m.armed[l]? = some { token := t, target := T } →
      (step config m (.act l)).status.state = T) := by
  obtain ⟨hsts, hxtd, hrtr⟩ := hflags
  have hdlc2 : ¬ message.dlc < 2 := by omega
  have hrx : rx_frame config message st = set_state config DoorState.Closed
      (set_fault config 0
        { st with log := Log ( log_prefix config) "Command RESET_FAULT received" st.log }) := by
    simp [rx_frame, hsts, hxtd, hrtr, hid, hdlc2, hdoor, hcmd]
  have htoken : (rx_frame config message st).move_token = st.move_token := by
    rw [hrx, set_state_move_token, set_fault_move_token]
  have hpending : (rx_frame config message st).pending = st.pending := by
    rw [hrx, set_state_pending, set_fault_pending]
  have hawake : (rx_frame config message st).awake = st.awake := by
    rw [hrx, set_state_awake, set_fault_awake]
  have harmed : (rx_frame config message st).armed = st.armed := by
    rw [hrx, set_state_armed, set_fault_armed]
  have hrunning : (rx_frame config message st).g_running = st.g_running := by
    rw [hrx]
    unfold set_state set_fault
    split_ifs <;> rfl
  refine ⟨?_, htoken, hpending, hawake, harmed, hrunning, ?_, ?_, ?_, ?_, ?_⟩
  · rw [hrx]
    exact set_state_state config _ _
  · intro hrun
    exact completes_state config _ i { token := t, target := T } (by rw [hrunning, hrun])
      (by rw [htoken, htok]) (by rw [hpending, hpend])
  · intro evs j hm hrun hj
    exact completes_state config _ j { token := t, target := T } hrun hm hj
  · intro m j hrun hj
    exact step_wake_running config m j _ hrun hj
  · intro m k hm hk
    exact step_check_current config m k _ hk hm
  · intro m l hl
    exact step_act_state config m l _ hl

/-- An instance of C13: door 1 is `Closed`, accepts OPEN, gets RESET_FAULT, and the
completion of the move ends in `Open`. -/
theorem reset_keeps_move_witness :
    ((commandFrame 1 3).sts = 0 ∧ (commandFrame 1 3).xtd = 0 ∧ (commandFrame 1 3).rtr = 0) ∧
    (commandFrame 1 3).id = kCommandId ∧ 2 ≤ (commandFrame 1 3).dlc ∧
    ((commandFrame 1 3).byte 0 : Int) = ({ door_id := 1 } : Config).door_id ∧
    (commandFrame 1 3).byte 1 = 3 ∧
    (rx_frame { door_id := 1 } (commandFrame 1 1) (Node.start { door_id := 1 })).pending[0]? =
      some { token := 1, target := DoorState.Open } ∧
    (rx_frame { door_id := 1 } (commandFrame 1 1) (Node.start { door_id := 1 })).move_token = 1 ∧
    (run { door_id := 1 } (Node.start { door_id := 1 })
      [.read 0 (.noerror (commandFrame 1 1)),
       .read 0 (.noerror (commandFrame 1 3))]).status.state = DoorState.Closed ∧
    (run { door_id := 1 } (Node.start { door_id := 1 })
      [.read 0 (.noerror (commandFrame 1 1)), .read 0 (.noerror (commandFrame 1 3)),
       .wake 0, .check 0, .act 0]).status.state = DoorState.Open :=
  ⟨by decide, by decide, by decide, by decide, by decide, by decide, by decide,
    (reset_keeps_move { door_id := 1 } (commandFrame 1 3)
      (rx_frame { door_id := 1 } (commandFrame 1 1) (Node.start { door_id := 1 }))
      0 1 DoorState.Open (by decide) (by decide) (by decide) (by decide) (by decide)
      (by decide) (by decide)).1,
    (reset_keeps_move { door_id := 1 } (commandFrame 1 3)
      (rx_frame { door_id := 1 } (commandFrame 1 1) (Node.start { door_id := 1 }))
      0 1 DoorState.Open (by decide) (by decide) (by decide) (by decide) (by decide)
      (by decide) (by decide)).2.2.2.2.2.2.1 (by decide)⟩

end DoorNode

/-! ## The HMI's view table and read errors -/

namespace HmiApp

/-- On a three-element table every received frame is handled without leaving
the vector, and the table keeps its three elements. -/
theorem rx_frame_in_bounds (now : Int) (message : CANAPI_Message_t) (st : Hmi)
    (hlen : st.doors.length = 3) :
    ∃ st1, rx_frame now message st = some st1 ∧ st1.doors.length = 3 := by
  by_cases hf : message.sts ≠ 0 ∨ message.xtd ≠ 0 ∨ message.rtr ≠ 0
  · exact ⟨st, by simp only [rx_frame, if_pos hf], hlen⟩
  · by_cases hr : message.id < kStatusIdBase ∨ message.id > kStatusIdMax ∨ message.dlc < 4
    · exact ⟨st, by simp only [rx_frame, if_neg hf, if_pos hr], hlen⟩
    · simp only [not_or, ne_eq, not_not, not_lt] at hf hr
      obtain ⟨st1, hrx, hdoors, -⟩ :=
        rx_frame_accepted now message st hf hr.1 (by omega) hr.2.2 hlen
      exact ⟨st1, hrx, by rw [hdoors, List.length_set, hlen]⟩

/-- On a three-element table every iteration of the receive loop stays within
the vector, and the table keeps its three elements. -/
theorem rx_iteration_in_bounds (now : Int) (rc_read : ReadResult) (st : Hmi)
    (hlen : st.doors.length = 3) :
    ∃ st1, rx_iteration now rc_read st = some st1 ∧ st1.doors.length = 3 := by
  cases rc_read with
  | noerror message => exact rx_frame_in_bounds now message st hlen
  | rx_empty => exact ⟨st, rfl, hlen⟩
  | timeout => exact ⟨st, rfl, hlen⟩
  | failure text => exact ⟨_, rfl, hlen⟩

/-- On a three-element table no sequence of iterations of the receive loop
leaves the vector. -/
theorem rx_iterations_in_bounds (reads : List (Int × ReadResult)) (st : Hmi)
    (hlen : st.doors.length = 3) :
    ∃ st1, rx_iterations st reads = some st1 ∧ st1.doors.length = 3 := by
  induction reads generalizing st with
  | nil => exact ⟨st, rfl, hlen⟩
  | cons read rest ih =>
    obtain ⟨now, rc_read⟩ := read
    obtain ⟨st1, h1, hlen1⟩ := rx_iteration_in_bounds now rc_read st hlen
    obtain ⟨st2, h2, hlen2⟩ := ih st1 hlen1
    exact ⟨st2, by simp only [rx_iterations, h1, h2], hlen2⟩

/-- C14. Index safety of the view table.  For a received frame that passes
validation (flags zero, identifier in `0x101..0x103`, `dlc >= 4`), whatever its
payload bytes, the resolved door id lies in 1..3, the access
`doors[door_id - 1]` into the three-element table stays within bounds, the
entry at that index is overwritten with the decoded view, and the two other
entries are as before.  The table has three elements when the threads start and
keeps them, so no sequence of iterations of the receive loop leaves it. -/
theorem rx_frame_index_safe (now : Int) (message : CANAPI_Message_t) (st : Hmi)
    (hflags : message.sts = 0 ∧ message.xtd = 0 ∧ message.rtr = 0)
    (hlo : 0x101 ≤ message.id) (hhi : message.id ≤ 0x103)
    (hdlc : 4 ≤ message.dlc) (hlen : st.doors.length = 3) :
    1 ≤ resolve_door_id message ∧ resolve_door_id message ≤ 3 ∧
    resolve_door_id message - 1 < st.doors.length ∧
    (∃ door, vectorAt st.doors ((resolve_door_id message : Int) - 1) = some door) ∧
    (∃ st1, rx_frame now message st = some st1 ∧
      st1.doors.length = 3 ∧
      st1.doors[resolve_door_id message - 1]? = some (decodedView now message) ∧
      ∀ j : Nat, j ≠ resolve_door_id message - 1 → st1.doors[j]? = st.doors[j]?) ∧
    (∀ reads : List (Int × ReadResult),
      ∃ st2, rx_iterations st reads = some st2 ∧ st2.doors.length = 3) ∧
    ({} : Hmi).doors.length = 3 := by
  obtain ⟨h1, h3⟩ := resolve_door_id_range message hlo hhi
  have hlt : resolve_door_id message - 1 < st.doors.length := by omega
  obtain ⟨st1, hrx, hdoors, -⟩ := rx_frame_accepted now message st hflags hlo hhi hdlc hlen
  refine ⟨h1, h3, hlt, vectorAt_of_range st.doors hlen _ h1 h3, ⟨st1, hrx, ?_, ?_, ?_⟩,
    fun reads => rx_iterations_in_bounds reads st hlen, rfl⟩
  · rw [hdoors, List.length_set, hlen]
  · rw [hdoors]
    exact List.getElem?_set_self hlt
  · intro j hj
    rw [hdoors]
    exact List.getElem?_set_ne (Ne.symm hj)

/-- An instance of C14: identifier `0x103` with the payload door byte 200 and
state byte 77 lands in the third view and leaves the first two alone. -/
theorem rx_frame_index_safe_witness :
    (0 = 0 ∧ 0 = 0 ∧ 0 = 0) ∧ 0x101 ≤ 0x103 ∧ 0x103 ≤ 0x103 ∧ 4 ≤ 8 ∧
    ({} : Hmi).doors.length = 3 ∧
    resolve_door_id { id := 0x103, xtd := 0, rtr := 0, sts := 0, dlc := 8,
                      data := [77, 255, 255, 200, 9, 9, 9, 9] } ≤ 3 ∧
    ∃ st1, rx_frame 5 { id := 0x103, xtd := 0, rtr := 0, sts := 0, dlc := 8,
                        data := [77, 255, 255, 200, 9, 9, 9, 9] } {} = some st1 ∧
      st1.doors.length = 3 ∧
      st1.doors[resolve_door_id { id := 0x103, xtd := 0, rtr := 0, sts := 0, dlc := 8,
                                  data := [77, 255, 255, 200, 9, 9, 9, 9] } - 1]? =
        some (decodedView 5 { id := 0x103, xtd := 0, rtr := 0, sts := 0, dlc := 8,
                              data := [77, 255, 255, 200, 9, 9, 9, 9] }) ∧
      ∀ j : Nat, j ≠ resolve_door_id { id := 0x103, xtd := 0, rtr := 0, sts := 0, dlc := 8,
                                       data := [77, 255, 255, 200, 9, 9, 9, 9] } - 1 →
        st1.doors[j]? = ({} : Hmi).doors[j]? :=
  ⟨by decide, by decide, by decide, by decide, by decide,
    (rx_frame_index_safe 5
      { id := 0x103, xtd := 0, rtr := 0, sts := 0, dlc := 8,
        data := [77, 255, 255, 200, 9, 9, 9, 9] } {}
      (by decide) (by decide) (by decide) (by decide) (by decide)).2.1,
    (rx_frame_index_safe 5
      { id := 0x103, xtd := 0, rtr := 0, sts := 0, dlc := 8,
        data := [77, 255, 255, 200, 9, 9, 9, 9] } {}
      (by decide) (by decide) (by decide) (by decide) (by decide)).2.2.2.2.1⟩

/-- C12 fails on the code.  The receive loop of the HMI writes one line for
every failed read, whatever the clock says: three failed reads one millisecond
apart write three lines.  The receive loop of the door node, given the same
three reads, writes one line. -/
theorem read_errors_not_rate_limited :
    (∀ (now : Int) (text : String) (st : Hmi),
      rx_iteration now (.failure text) st =
        some { st with log := st.log ++ ["CAN read error: " ++ text] }) ∧
    rx_iterations {}
        [(1000000000, .failure "CAN error -1"), (1001000000, .failure "CAN error -1"),
         (1002000000, .failure "CAN error -1")] =
      some { log := ["CAN read error: CAN error -1", "CAN read error: CAN error -1",
                     "CAN read error: CAN error -1"] } ∧
    (DoorNode.run { door_id := 1 } (DoorNode.Node.start { door_id := 1 })
        [.read 1000000000 (.failure "CAN error -1"), .read 1001000000 (.failure "CAN error -1"),
         .read 1002000000 (.failure "CAN error -1")]).log =
      ["DoorNode[1] CAN read error: CAN error -1"] :=
  ⟨fun _ _ _ => rfl, by decide, by decide⟩

end HmiApp

end RailDoor
